import Mathlib

/-!
Verification of the dike request-coalescing library.

This file gives a shallow embedding of the two modules the claims are about:

* `src/dike/_batch.py` — the batch coalescer.  Its closure state
  (`next_free_batch`, `call_args_queue`, `n_rows_in_queue`,
  `result_ready_events`, `results`, `num_results_ready`) is modelled as an
  explicit record `BatchState`; each closure function becomes a pure state
  transformer.  Python dicts become association lists with Python dict
  semantics (`dset` = `d[k] = v`, `ddel` = `del d[k]`, `List.lookup` =
  `d[k]`, where a missing key is surfaced as a `PyErr.keyError`).
  The scheduling model of asyncio is single-threaded cooperative: all code
  between suspension points runs atomically, so the non-suspending parts of
  the source are faithful pure functions, and interleavings are modelled as
  explicit traces of such atomic steps.

* `src/dike/_retry.py` — the retry-with-backoff wrapper, modelled as a
  structurally recursive loop over a configured attempt count.
-/

namespace Dike

/-- Python exceptions that appear in the modelled code paths. -/
inductive PyErr where
  | valueError (msg : String)
  | keyError (key : Nat)
  | timeoutError
  | cancelledError
  | runtimeError (msg : String)
  deriving DecidableEq, Repr

/-- Python dict assignment `d[k] = v`: replace in place, else append. -/
def dset {β : Type} (k : Nat) (v : β) : List (Nat × β) → List (Nat × β)
  | [] => [(k, v)]
  | (k', v') :: rest => if k' = k then (k, v) :: rest else (k', v') :: dset k v rest

/-- Python dict deletion `del d[k]` (keys are unique in our states). -/
def ddel {β : Type} (k : Nat) : List (Nat × β) → List (Nat × β)
  | [] => []
  | (k', v') :: rest => if k' = k then rest else (k', v') :: ddel k rest

/-- The closure state of the decorator produced by `dike.batch`
(`_batch.py` lines 106-111).  `result_ready_events` maps a batch ordinal to
the set-flag of its `asyncio.Event`.  `results` holds either the captured
exception or the returned sequence (`Union[Exception, List]`). -/
structure BatchState (α : Type) where
  next_free_batch : Nat
  call_args_queue : List (List (List α) × List (String × List α))
  n_rows_in_queue : Nat
  result_ready_events : List (Nat × Bool)
  results : List (Nat × Except PyErr (List α))
  num_results_ready : List (Nat × Nat)

/-- The initial closure state: ordinal 0, empty queue and maps. -/
def initState {α : Type} : BatchState α :=
  { next_free_batch := 0
    call_args_queue := []
    n_rows_in_queue := 0
    result_ready_events := []
    results := []
    num_results_ready := [] }

/-- Python set equality of two dict key views (`kwargs.keys() != ...` compares
as sets, ignoring order). -/
def sameKeys (ks1 ks2 : List String) : Bool :=
  ks1.all (fun k => ks2.contains k) && ks2.all (fun k => ks1.contains k)

/-- The shape-consistency condition of `add_args_to_queue`
(`_batch.py` lines 138-141): nonempty queue and a differing positional count
or keyword key set. -/
def shapeMismatch {α : Type} (args : List (List α)) (kwargs : List (String × List α))
    (s : BatchState α) : Bool :=
  match s.call_args_queue with
  | [] => false
  | (a0, k0) :: _ =>
      decide (args.length ≠ a0.length)
        || ! sameKeys (kwargs.map Prod.fst) (k0.map Prod.fst)

/-- Row count of a call (`_batch.py` lines 143-149): length of the first
positional vector, else the length of the first keyword value, else 0. -/
def n_rows_of {α : Type} (args : List (List α)) (kwargs : List (String × List α)) : Nat :=
  match args with
  | a0 :: _ => a0.length
  | [] =>
    match kwargs with
    | (_, v) :: _ => v.length
    | [] => 0

/-- Model of `add_args_to_queue` (`_batch.py` lines 134-155): validate the shape,
reject empty rows, append the call and return `(offset, offset + rows)`.
On a raised `ValueError` the state is unchanged (the code raises before any
mutation). -/
def add_args_to_queue {α : Type} (args : List (List α)) (kwargs : List (String × List α))
    (s : BatchState α) : Except PyErr (Nat × Nat) × BatchState α :=
  if shapeMismatch args kwargs s then
    (.error (.valueError "Inconsistent use of positional and keyword arguments"), s)
  else if n_rows_of args kwargs = 0 then
    (.error (.valueError "Function called with empty collections as arguments"), s)
  else
    (.ok (s.n_rows_in_queue, s.n_rows_in_queue + n_rows_of args kwargs),
     { s with
        call_args_queue := s.call_args_queue ++ [(args, kwargs)]
        n_rows_in_queue := s.n_rows_in_queue + n_rows_of args kwargs })

/-- The event-creation line of `enqueue` (`_batch.py` lines 126-127):
`if batch_no not in result_ready_events: result_ready_events[batch_no] =
asyncio.Event()` for the current ordinal. -/
def ensure_event {α : Type} (s : BatchState α) : BatchState α :=
  if (s.result_ready_events.lookup s.next_free_batch).isSome then s
  else { s with
          result_ready_events := dset s.next_free_batch false s.result_ready_events }

/-- The part of `enqueue` before the `yield` (`_batch.py` lines 122-130):
record the current ordinal, create its `asyncio.Event` if absent, add the
arguments and return `(batch_no, start_index, stop_index)`. -/
def enqueue_begin {α : Type} (args : List (List α)) (kwargs : List (String × List α))
    (s : BatchState α) : Except PyErr (Nat × Nat × Nat) × BatchState α :=
  ((add_args_to_queue args kwargs (ensure_event s)).1.map
     (fun p => (s.next_free_batch, p.1, p.2)),
   (add_args_to_queue args kwargs (ensure_event s)).2)

/-- Columnwise aggregation of the queued calls (`_batch.py` lines 192-210,
`argument_type = "list"`; the `"numpy"` branch is `np.concatenate` along
axis 0, the same concatenation on our abstract row type).  Positional column
`j` is the flattening of the `j`-th vector of every queued call; keyword
columns follow the key order of the first queued call and look values up
by key. -/
def aggregate {α : Type} (queue : List (List (List α) × List (String × List α))) :
    List (List α) × List (String × List α) :=
  match queue with
  | [] => ([], [])
  | (a0, k0) :: _ =>
    ((List.range a0.length).map (fun j =>
        queue.flatMap (fun call => (call.1.get? j).getD [])),
     k0.map (fun p =>
        (p.1, queue.flatMap (fun call => (call.2.lookup p.1).getD []))))

/-- Model of `pop_args_from_queue` (`_batch.py` lines 188-215): aggregate the queue,
then reset it, zero the row count and advance `next_free_batch`. -/
def pop_args_from_queue {α : Type} (s : BatchState α) :
    (List (List α) × List (String × List α)) × BatchState α :=
  (aggregate s.call_args_queue,
   { s with
      call_args_queue := []
      n_rows_in_queue := 0
      next_free_batch := s.next_free_batch + 1 })

/-- Setting an `asyncio.Event` (`result_ready_events[batch_no].set()`).  The
entry always exists when `calculate` runs it, since the dispatcher itself
created it in `enqueue`; a missing entry (unreachable) is left unchanged
where Python would raise `KeyError`. -/
def set_event (b : Nat) (evs : List (Nat × Bool)) : List (Nat × Bool) :=
  if (evs.lookup b).isSome then dset b true evs else evs

/-- The tail of `calculate` after `await func(...)` resolves
(`_batch.py` lines 182-186): store the outcome (a raised exception is
captured, never propagated), set the reader count and fire the event. -/
def calculate_end {α : Type} (b : Nat) (outcome : Except PyErr (List α)) (n_results : Nat)
    (s : BatchState α) : BatchState α :=
  { s with
     results := dset b outcome s.results
     num_results_ready := dset b n_results s.num_results_ready
     result_ready_events := set_event b s.result_ready_events }

/-- Model of `calculate` (`_batch.py` lines 175-186): if the ordinal is still the open
one, pop the queue, invoke the wrapped operation once with the aggregated
arguments and publish the outcome; otherwise do nothing.  The second
component records the invocation (its concatenated arguments), `none` when
the wrapped operation was not invoked. -/
def calculate {α : Type}
    (func : List (List α) → List (String × List α) → Except PyErr (List α))
    (b : Nat) (s : BatchState α) :
    BatchState α × Option (List (List α) × List (String × List α)) :=
  if s.next_free_batch = b then
    let n_results := s.call_args_queue.length
    let popped := pop_args_from_queue s
    (calculate_end b (func popped.1.1 popped.1.2) n_results popped.2, some popped.1)
  else (s, none)

/-- The non-suspending branch of `wait_for_calculation`
(`_batch.py` lines 159-160): when the queued rows reach
`target_batch_size`, the admitting call dispatches synchronously.  The two
timeout branches suspend; they re-enter `calculate` (modelled by `Op.trig`
in the trace semantics below) or keep waiting (modelled by `run_exit`). -/
def wait_for_calculation_step {α : Type} (target_batch_size : Nat)
    (func : List (List α) → List (String × List α) → Except PyErr (List α))
    (b : Nat) (s : BatchState α) :
    BatchState α × Option (List (List α) × List (String × List α)) :=
  if target_batch_size ≤ s.n_rows_in_queue then calculate func b s else (s, none)

/-- Model of `get_results` (`_batch.py` lines 217-225): re-raise a captured exception,
else return the Python slice `results[batch_no][start_index:stop_index]`.
A missing ordinal would be a `KeyError`. -/
def get_results {α : Type} (start stop b : Nat) (s : BatchState α) :
    Except PyErr (List α) :=
  match s.results.lookup b with
  | none => .error (.keyError b)
  | some (.error e) => .error e
  | some (.ok vals) => .ok ((vals.drop start).take (stop - start))

/-- Model of `remove_result` (`_batch.py` lines 227-236): decrement the reader count,
deleting all three entries when it reaches 1.  The unguarded lookup
`num_results_ready[batch_no]` raises `KeyError` when the batch has no
published result yet. -/
def remove_result {α : Type} (b : Nat) (s : BatchState α) :
    Except PyErr (BatchState α) :=
  match s.num_results_ready.lookup b with
  | none => .error (.keyError b)
  | some n =>
    if n = 1 then
      .ok { s with
              result_ready_events := ddel b s.result_ready_events
              results := ddel b s.results
              num_results_ready := ddel b s.num_results_ready }
    else
      .ok { s with num_results_ready := dset b (n - 1) s.num_results_ready }

/-- The exit of `batching_call` through the context manager
(`_batch.py` lines 129-132): whatever the outcome of the body, the
`finally` block runs `remove_result`; an exception raised there replaces
the in-flight outcome (Python exception-during-finally semantics) and
leaves the state as it was. -/
def run_exit {α : Type} (outcome : Except PyErr (List α)) (b : Nat) (s : BatchState α) :
    Except PyErr (List α) × BatchState α :=
  match remove_result b s with
  | .ok s' => (outcome, s')
  | .error e => (.error e, s)

/-- Behaviour of `remove_result` as it runs inside the `finally` block: a raised
`KeyError` propagates to the caller but leaves the state untouched. -/
def remove_result_state {α : Type} (b : Nat) (s : BatchState α) : BatchState α :=
  match remove_result b s with
  | .ok s' => s'
  | .error _ => s

/-!
### Trace semantics

Under the cooperative asyncio scheduler, the coalescer mutates its shared
state only in three kinds of atomic (suspension-free) sections: an
admission (`enqueue` up to the first `await`), a dispatch trigger (a run of
`calculate`, entered either from the size-threshold branch or from the
first-timeout branch of `wait_for_calculation`), and a cleanup
(`remove_result` in the `finally`).  An arbitrary interleaving of calls is
therefore a list of such atomic operations.  `run` executes a trace and
logs each actual invocation of the wrapped operation together with the
batch ordinal it served.
-/

/-- One atomic (suspension-free) section touching the shared state. -/
inductive Op (α : Type) where
  | arrive (args : List (List α)) (kwargs : List (String × List α))
  | trig (b : Nat)
  | cleanup (b : Nat)

/-- Execute one atomic section; the second component logs an invocation of
the wrapped operation, tagged with the batch ordinal it was made for. -/
def step {α : Type}
    (func : List (List α) → List (String × List α) → Except PyErr (List α))
    (op : Op α) (s : BatchState α) :
    BatchState α × Option (Nat × (List (List α) × List (String × List α))) :=
  match op with
  | .arrive args kwargs => ((enqueue_begin args kwargs s).2, none)
  | .trig b =>
    let r := calculate func b s
    (r.1, r.2.map (fun ak => (b, ak)))
  | .cleanup b => (remove_result_state b s, none)

/-- Execute a trace of atomic sections, collecting the invocation log. -/
def run {α : Type}
    (func : List (List α) → List (String × List α) → Except PyErr (List α)) :
    List (Op α) → BatchState α →
      BatchState α × List (Nat × (List (List α) × List (String × List α)))
  | [], s => (s, [])
  | op :: ops, s =>
    let r1 := step func op s
    let r2 := run func ops r1.1
    (r2.1, r1.2.toList ++ r2.2)

/-!
### Model of `src/dike/_retry.py`
-/

/-- The eager argument validation of `retry` (`_retry.py` lines 68-69):
`if attempts and not attempts >= 0: raise ValueError(...)`.  Python
truthiness makes `attempts` pass the first conjunct exactly when it is
neither `None` nor `0`. -/
def retry_validate (attempts : Option Int) : Except PyErr Unit :=
  match attempts with
  | none => .ok ()
  | some a =>
    if a ≠ 0 ∧ ¬ a ≥ 0 then
      .error (.valueError "Error when wrapping f(). max_attempts must be >= 0!")
    else .ok ()

/-- The `while counter:` loop of `guarded_call` (`_retry.py` lines 80-93)
for a configured non-negative attempt count (`attempts = None` sets
`counter = -1` and loops without bound, outside this terminating model).
`func i` is the outcome of the `i`-th invocation of the wrapped operation.
Returns the overall outcome (`.ok none` is the implicit Python `None` when
the loop body never runs), the total number of invocations, and the list of
sleep delays taken before each re-invocation. -/
def guarded_call_loop {α : Type} (func : Nat → Except PyErr α) (backoff : Rat) :
    Nat → Nat → Rat → Except PyErr (Option α) × Nat × List Rat
  | 0, i, _ => (.ok none, i, [])
  | c + 1, i, d =>
    match func i with
    | .ok x => (.ok (some x), i + 1, [])
    | .error e =>
      if c = 0 then (.error e, i + 1, [])
      else
        let r := guarded_call_loop func backoff c (i + 1) (d * backoff)
        (r.1, r.2.1, d :: r.2.2)

/-- Model of `guarded_call` (`_retry.py` lines 76-93) with a configured integer
`attempts`: `counter = attempts`, `next_delay = 0 if delay is None else
delay.total_seconds()`. -/
def guarded_call {α : Type} (attempts : Nat) (delay : Option Rat) (backoff : Rat)
    (func : Nat → Except PyErr α) : Except PyErr (Option α) × Nat × List Rat :=
  guarded_call_loop func backoff attempts 0 (delay.getD 0)

/-!
### Model of the configuration validation of `dike.batch`
-/

/-- The eager configuration validation of `batch` (`_batch.py` lines
94-103).  `numpy_available` models whether the `import numpy` at module
load succeeded.  Note that `max_processing_time` is accepted without any
check. -/
def batch_validate (target_batch_size : Int)
    (max_waiting_time max_processing_time : Rat)
    (argument_type : String) (numpy_available : Bool) : Except PyErr Unit :=
  if ¬ target_batch_size > 0 then
    .error (.valueError "target_batch_size must be > 0")
  else if ¬ max_waiting_time > 0 then
    .error (.valueError "max_waiting_time must be > 0")
  else if ¬ (argument_type = "list" ∨ argument_type = "numpy") then
    .error (.valueError "Invalid argument_type. Must be one of list, numpy")
  else if argument_type = "numpy" ∧ numpy_available = false then
    .error (.valueError "Unable to use numpy as argument_type because numpy is not available")
  else .ok ()

/-!
### Concrete rows for the exemplary scenarios

The spec scenarios mix integer and string argument vectors, so the concrete
row type is a sum of the two.
-/

/-- A concrete row value: a Python int or str. -/
abbrev Val := Sum Int String

/-- Shorthand for an integer row value. -/
def vi (n : Int) : Val := Sum.inl n

/-- Shorthand for a string row value. -/
def vs (s : String) : Val := Sum.inr s

/-- The wrapped operation of the §8 exact-threshold scenario: returns
`[10, 11, 12]` for the batched call. -/
def c1_func : List (List Val) → List (String × List Val) → Except PyErr (List Val) :=
  fun _ _ => .ok [vi 10, vi 11, vi 12]

/-- A wrapped operation that raises `RuntimeError("x")` for any batch. -/
def c5_func : List (List Val) → List (String × List Val) → Except PyErr (List Val) :=
  fun _ _ => .error (.runtimeError "x")

/-- State after the first admission `f([0], ["a"])`. -/
def c1_s1 : BatchState Val := (enqueue_begin [[vi 0], [vs "a"]] [] initState).2

/-- State after the second admission `f([1], ["b"])`. -/
def c1_s2 : BatchState Val := (enqueue_begin [[vi 1], [vs "b"]] [] c1_s1).2

/-- State after the third admission `f([2], ["c"])`. -/
def c1_s3 : BatchState Val := (enqueue_begin [[vi 2], [vs "c"]] [] c1_s2).2

/-!
### Scenario states for the cleanup exit paths (claims C3 and C4)
-/

/-- State after admitting a lone single-row call `f([0])` into batch 0
(target size 3 not reached, so no dispatch has happened). -/
def c3_s1 : BatchState Val := (enqueue_begin [[vi 0]] [] initState).2

/-- State after admitting two single-row calls `f([0])`, `f([1])` into
batch 0 (target size 10 not reached). -/
def c4_s2 : BatchState Val :=
  (enqueue_begin [[vi 1]] [] (enqueue_begin [[vi 0]] [] initState).2).2

/-- The state while a timeout-triggered dispatch of batch 0 is in flight:
the dispatching peer has executed the queue pop of `calculate`
(`_batch.py` line 180) and is suspended in `await func(...)`
(line 182), so `results` and `num_results_ready` have no entry for
ordinal 0 yet and the readiness event is still unset. -/
def c4_inflight : BatchState Val := (pop_args_from_queue c4_s2).2

/-!
### Helper lemmas
-/

/-- Looking up a key just written by `dset` yields the written value. -/
theorem lookup_dset_self {β : Type} (k : Nat) (v : β) (l : List (Nat × β)) :
    (dset k v l).lookup k = some v := by
  induction l with
  | nil => simp [dset, List.lookup]
  | cons hd tl ih =>
    obtain ⟨k', v'⟩ := hd
    by_cases h : k' = k
    · simp [dset, h, List.lookup]
    · simp only [dset, if_neg h, List.lookup]
      have : (k == k') = false := by
        simp [Ne.symm h]
      simp [this, ih]

/-- Admission bookkeeping (`add_args_to_queue`) never touches the batch ordinal. -/
theorem add_args_nfb {α : Type} (args : List (List α)) (kwargs : List (String × List α))
    (s : BatchState α) :
    (add_args_to_queue args kwargs s).2.next_free_batch = s.next_free_batch := by
  unfold add_args_to_queue
  split
  · rfl
  · split <;> rfl

/-- Event creation (`ensure_event`) changes only the event map. -/
theorem ensure_event_fields {α : Type} (s : BatchState α) :
    (ensure_event s).next_free_batch = s.next_free_batch ∧
    (ensure_event s).call_args_queue = s.call_args_queue ∧
    (ensure_event s).n_rows_in_queue = s.n_rows_in_queue ∧
    (ensure_event s).results = s.results ∧
    (ensure_event s).num_results_ready = s.num_results_ready := by
  unfold ensure_event
  split <;> exact ⟨rfl, rfl, rfl, rfl, rfl⟩

/-- Admission never touches the batch ordinal. -/
theorem enqueue_begin_nfb {α : Type} (args : List (List α)) (kwargs : List (String × List α))
    (s : BatchState α) :
    (enqueue_begin args kwargs s).2.next_free_batch = s.next_free_batch := by
  unfold enqueue_begin
  rw [add_args_nfb]
  exact (ensure_event_fields s).1

/-- Cleanup never touches the batch ordinal. -/
theorem remove_result_state_nfb {α : Type} (b : Nat) (s : BatchState α) :
    (remove_result_state b s).next_free_batch = s.next_free_batch := by
  unfold remove_result_state remove_result
  rcases h : s.num_results_ready.lookup b with _ | n
  · rfl
  · by_cases h1 : n = 1 <;> simp [h1]

/-- Dispatch (`calculate`) advances the ordinal by one exactly when it fires. -/
theorem calculate_nfb {α : Type}
    (func : List (List α) → List (String × List α) → Except PyErr (List α))
    (b : Nat) (s : BatchState α) :
    (calculate func b s).1.next_free_batch =
      if s.next_free_batch = b then b + 1 else s.next_free_batch := by
  unfold calculate
  split
  · rename_i h
    simp [calculate_end, pop_args_from_queue, h]
  · rfl

/-- One atomic section never decreases the batch ordinal. -/
theorem step_nfb_mono {α : Type}
    (func : List (List α) → List (String × List α) → Except PyErr (List α))
    (op : Op α) (s : BatchState α) :
    s.next_free_batch ≤ (step func op s).1.next_free_batch := by
  cases op with
  | arrive args kwargs => simp [step, enqueue_begin_nfb]
  | trig b =>
    simp only [step]
    rw [calculate_nfb]
    split
    · omega
    · exact le_refl _
  | cleanup b => simp [step, remove_result_state_nfb]

/-- If an atomic section logs an invocation for ordinal `b`, then `b` was
the open ordinal when the section ran, and the section closed it. -/
theorem step_emit {α : Type}
    {func : List (List α) → List (String × List α) → Except PyErr (List α)}
    {op : Op α} {s : BatchState α}
    {b : Nat} {ak : List (List α) × List (String × List α)}
    (h : (step func op s).2 = some (b, ak)) :
    b = s.next_free_batch ∧ (step func op s).1.next_free_batch = b + 1 := by
  cases op with
  | arrive args kwargs => simp [step] at h
  | trig b' =>
    simp only [step] at h ⊢
    unfold calculate at h ⊢
    by_cases hb : s.next_free_batch = b'
    · simp only [hb, if_pos rfl, Option.map_some] at h ⊢
      obtain ⟨hb', _⟩ := Prod.mk.injEq .. ▸ (Option.some.injEq .. ▸ h)
      constructor
      · omega
      · simp [calculate_end, pop_args_from_queue, ← hb']
        omega
    · simp [if_neg hb] at h
  | cleanup b' => simp [step] at h

/-- Along any trace: the ordinal never decreases, every logged invocation
carries an ordinal at least the starting ordinal and below the final one,
and the logged ordinals are strictly increasing. -/
theorem run_log_spec {α : Type}
    (func : List (List α) → List (String × List α) → Except PyErr (List α))
    (ops : List (Op α)) : ∀ (s : BatchState α),
    s.next_free_batch ≤ (run func ops s).1.next_free_batch ∧
    (∀ p ∈ (run func ops s).2, s.next_free_batch ≤ p.1) ∧
    List.Pairwise (fun p q => p.1 < q.1) (run func ops s).2 := by
  induction ops with
  | nil => intro s; simp [run]
  | cons op ops ih =>
    intro s
    simp only [run]
    rcases hstep : (step func op s).2 with _ | ⟨b, ak⟩
    · obtain ⟨ih1, ih2, ih3⟩ := ih (step func op s).1
      have hmono := step_nfb_mono func op s
      refine ⟨le_trans hmono ih1, ?_, ?_⟩
      · intro p hp
        simp only [hstep, Option.toList_none, List.nil_append] at hp
        exact le_trans hmono (ih2 p hp)
      · simpa [hstep] using ih3
    · obtain ⟨hb, hnext⟩ := step_emit hstep
      obtain ⟨ih1, ih2, ih3⟩ := ih (step func op s).1
      rw [hnext] at ih1 ih2
      refine ⟨?_, ?_, ?_⟩
      · omega
      · intro p hp
        simp only [hstep, Option.toList_some, List.cons_append, List.nil_append,
          List.mem_cons] at hp
        rcases hp with rfl | hp
        · omega
        · have := ih2 p hp; omega
      · simp only [hstep, Option.toList_some, List.cons_append, List.nil_append]
        refine List.pairwise_cons.2 ⟨?_, ih3⟩
        intro q hq
        have := ih2 q hq
        omega

/-!
### The claims
-/

/-- C1: with `target_batch_size = 3`, three concurrent single-row calls
`f([0], ["a"])`, `f([1], ["b"])`, `f([2], ["c"])` admitted before any
resolves are assigned batch 0 with the contiguous FIFO row ranges
`[0,1)`, `[1,2)`, `[2,3)`; the first two threshold checks do not dispatch,
the third dispatches exactly once with the columnwise-concatenated
arguments `([0,1,2], ["a","b","c"])` in arrival order, and when the
operation returns `[10,11,12]` the three callers read back `[10]`, `[11]`
and `[12]` respectively. -/
theorem c1_exact_threshold_batching :
    (enqueue_begin [[vi 0], [vs "a"]] [] initState).1 = .ok (0, 0, 1) ∧
    (enqueue_begin [[vi 1], [vs "b"]] [] c1_s1).1 = .ok (0, 1, 2) ∧
    (enqueue_begin [[vi 2], [vs "c"]] [] c1_s2).1 = .ok (0, 2, 3) ∧
    (wait_for_calculation_step 3 c1_func 0 c1_s1).2 = none ∧
    (wait_for_calculation_step 3 c1_func 0 c1_s2).2 = none ∧
    (wait_for_calculation_step 3 c1_func 0 c1_s3).2 =
      some ([[vi 0, vi 1, vi 2], [vs "a", vs "b", vs "c"]], []) ∧
    get_results 0 1 0 (wait_for_calculation_step 3 c1_func 0 c1_s3).1 = .ok [vi 10] ∧
    get_results 1 2 0 (wait_for_calculation_step 3 c1_func 0 c1_s3).1 = .ok [vi 11] ∧
    get_results 2 3 0 (wait_for_calculation_step 3 c1_func 0 c1_s3).1 = .ok [vi 12] :=
  ⟨rfl, rfl, rfl, rfl, rfl, rfl, rfl, rfl, rfl⟩

/-- C2: along every interleaving of admissions, dispatch triggers and
cleanups — including a size-threshold trigger and a timeout trigger racing
for the same ordinal — the invocation log of the wrapped operation never
contains the same batch ordinal twice: the open-ordinal check in
`calculate` makes the losing trigger a no-op. -/
theorem c2_no_double_dispatch {α : Type}
    (func : List (List α) → List (String × List α) → Except PyErr (List α))
    (ops : List (Op α)) (s : BatchState α) :
    ((run func ops s).2.map Prod.fst).Nodup := by
  have h := (run_log_spec func ops s).2.2
  simp only [List.Nodup, List.pairwise_map]
  exact h.imp (fun hlt => Nat.ne_of_lt hlt)

/-- C3: the claimed decrement-and-maybe-delete on every exit path fails on
the early-cancellation path.  After a lone call is admitted into batch 0
and cancelled while waiting (before any dispatch), the `finally` cleanup
`remove_result` raises `KeyError(0)` — `num_results_ready` has no entry to
decrement — so the readiness-event entry and the queued arguments are not
removed and the internal maps do not return to empty. -/
theorem c3_cancelled_cleanup_keyError :
    run_exit (.error .cancelledError) 0 c3_s1 = (.error (.keyError 0), c3_s1) ∧
    c3_s1.num_results_ready = [] ∧
    c3_s1.result_ready_events = [(0, false)] ∧
    c3_s1.call_args_queue.length = 1 :=
  ⟨rfl, rfl, rfl, rfl⟩

/-- C4: the claimed `asyncio.TimeoutError` on the second-wait timeout is
replaced by a different error.  With two single-row calls queued in batch 0
and a timeout-triggered dispatch by a peer in flight (queue popped, wrapped
operation not yet finished, ordinal advanced to 1, readiness event still
unset), a call whose second wait elapses exits through the `finally`
cleanup, where `remove_result` raises `KeyError(0)` because
`num_results_ready[0]` is only written after the wrapped operation
returns; the caller therefore receives `KeyError`, not
`asyncio.TimeoutError`. -/
theorem c4_second_timeout_keyError :
    c4_s2.next_free_batch = 0 ∧
    c4_inflight.next_free_batch = 1 ∧
    c4_inflight.result_ready_events.lookup 0 = some false ∧
    c4_inflight.num_results_ready.lookup 0 = none ∧
    run_exit (.error .timeoutError) 0 c4_inflight =
      (.error (.keyError 0), c4_inflight) :=
  ⟨rfl, rfl, rfl, rfl, rfl⟩

/-- C5: if the wrapped operation raises while processing a dispatched
batch, `calculate` captures that error in the result buffer instead of
propagating it (its return carries only state), and every member call of
the batch — whatever row range `[start, stop)` it owns — has the identical
error value re-raised by `get_results`. -/
theorem c5_upstream_error_fanout {α : Type}
    (func : List (List α) → List (String × List α) → Except PyErr (List α))
    (s : BatchState α) (b : Nat) (e : PyErr) (start stop : Nat)
    (hopen : s.next_free_batch = b)
    (herr : func (aggregate s.call_args_queue).1 (aggregate s.call_args_queue).2 =
      .error e) :
    (calculate func b s).2 = some (aggregate s.call_args_queue) ∧
    (calculate func b s).1.results.lookup b = some (.error e) ∧
    get_results start stop b (calculate func b s).1 = .error e := by
  unfold calculate
  rw [hopen]
  simp only [if_pos rfl, pop_args_from_queue]
  refine ⟨rfl, ?_, ?_⟩
  · simp [calculate_end, herr, lookup_dset_self]
  · simp [get_results, calculate_end, herr, lookup_dset_self]

/-- Witness for C5: the three-call batch of the error fan-out scenario with
an operation raising `RuntimeError("x")`. -/
theorem c5_upstream_error_fanout_witness :
    (calculate c5_func 0 c1_s3).2 = some (aggregate c1_s3.call_args_queue) ∧
    (calculate c5_func 0 c1_s3).1.results.lookup 0 =
      some (.error (.runtimeError "x")) ∧
    get_results 0 1 0 (calculate c5_func 0 c1_s3).1 = .error (.runtimeError "x") :=
  c5_upstream_error_fanout c5_func c1_s3 0 (.runtimeError "x") 0 1 rfl rfl

/-- The shape check (`shapeMismatch`) only looks at the queue. -/
theorem shapeMismatch_congr {α : Type} (args : List (List α))
    (kwargs : List (String × List α)) (s1 s2 : BatchState α)
    (h : s1.call_args_queue = s2.call_args_queue) :
    shapeMismatch args kwargs s1 = shapeMismatch args kwargs s2 := by
  unfold shapeMismatch
  rw [h]

/-- C6: a call whose positional count or keyword key set differs from the
calls already queued in the open batch is rejected synchronously with the
`ValueError` of `add_args_to_queue`, and the queue, the cumulative row
count, the open ordinal, the result buffers and the reader counts are all
left unchanged — the eventual results of the queued calls are untouched. -/
theorem c6_shape_mismatch_local {α : Type}
    (s : BatchState α) (args : List (List α)) (kwargs k0 : List (String × List α))
    (a0 : List (List α)) (rest : List (List (List α) × List (String × List α)))
    (hq : s.call_args_queue = (a0, k0) :: rest)
    (hmm : args.length ≠ a0.length ∨
      sameKeys (kwargs.map Prod.fst) (k0.map Prod.fst) = false) :
    (enqueue_begin args kwargs s).1 =
      .error (.valueError "Inconsistent use of positional and keyword arguments") ∧
    (enqueue_begin args kwargs s).2.call_args_queue = s.call_args_queue ∧
    (enqueue_begin args kwargs s).2.n_rows_in_queue = s.n_rows_in_queue ∧
    (enqueue_begin args kwargs s).2.next_free_batch = s.next_free_batch ∧
    (enqueue_begin args kwargs s).2.results = s.results ∧
    (enqueue_begin args kwargs s).2.num_results_ready = s.num_results_ready := by
  have hsm : shapeMismatch args kwargs s = true := by
    unfold shapeMismatch
    rw [hq]
    rcases hmm with h | h
    · simp [h]
    · simp [h]
  obtain ⟨he1, he2, he3, he4, he5⟩ := ensure_event_fields s
  have key : add_args_to_queue args kwargs (ensure_event s) =
      (.error (.valueError "Inconsistent use of positional and keyword arguments"),
       ensure_event s) := by
    unfold add_args_to_queue
    rw [shapeMismatch_congr args kwargs (ensure_event s) s he2, hsm]
    simp
  unfold enqueue_begin
  rw [key]
  exact ⟨rfl, he2, he3, he1, he4, he5⟩

/-- Witness for C6: a keyword-only call joining a batch built from one
positional single-row call is rejected and the state is untouched. -/
theorem c6_shape_mismatch_local_witness :
    (enqueue_begin ([] : List (List Val)) [("x", [vi 1])] c3_s1).1 =
      .error (.valueError "Inconsistent use of positional and keyword arguments") ∧
    (enqueue_begin ([] : List (List Val)) [("x", [vi 1])] c3_s1).2.call_args_queue =
      c3_s1.call_args_queue ∧
    (enqueue_begin ([] : List (List Val)) [("x", [vi 1])] c3_s1).2.n_rows_in_queue =
      c3_s1.n_rows_in_queue ∧
    (enqueue_begin ([] : List (List Val)) [("x", [vi 1])] c3_s1).2.next_free_batch =
      c3_s1.next_free_batch ∧
    (enqueue_begin ([] : List (List Val)) [("x", [vi 1])] c3_s1).2.results =
      c3_s1.results ∧
    (enqueue_begin ([] : List (List Val)) [("x", [vi 1])] c3_s1).2.num_results_ready =
      c3_s1.num_results_ready :=
  c6_shape_mismatch_local c3_s1 [] [("x", [vi 1])] [] [[vi 0]] [] rfl
    (Or.inl (by decide))

/-- C7: for a shape-compatible call, the admitted row count is
`n_rows_of` — the length of the first positional vector, else of the first
keyword vector; zero rows fails with the empty-collections `ValueError`
leaving the state unchanged, and otherwise the call is appended to the
queue and owns the contiguous row range from the previous cumulative row
count to that count plus its own rows. -/
theorem c7_row_count_and_range {α : Type}
    (s : BatchState α) (args : List (List α)) (kwargs : List (String × List α))
    (h : shapeMismatch args kwargs s = false) :
    add_args_to_queue args kwargs s =
      if n_rows_of args kwargs = 0 then
        (.error (.valueError "Function called with empty collections as arguments"), s)
      else
        (.ok (s.n_rows_in_queue, s.n_rows_in_queue + n_rows_of args kwargs),
         { s with
            call_args_queue := s.call_args_queue ++ [(args, kwargs)]
            n_rows_in_queue := s.n_rows_in_queue + n_rows_of args kwargs }) := by
  unfold add_args_to_queue
  rw [h]
  simp

/-- Witness for C7: a two-row positional call admitted into the empty
initial state owns the row range from 0 to 2. -/
theorem c7_row_count_and_range_witness :
    add_args_to_queue [[vi 5, vi 6]] ([] : List (String × List Val))
        (initState : BatchState Val) =
      if n_rows_of [[vi 5, vi 6]] ([] : List (String × List Val)) = 0 then
        (.error (.valueError "Function called with empty collections as arguments"),
         (initState : BatchState Val))
      else
        (.ok ((initState : BatchState Val).n_rows_in_queue,
              (initState : BatchState Val).n_rows_in_queue +
                n_rows_of [[vi 5, vi 6]] ([] : List (String × List Val))),
         { (initState : BatchState Val) with
            call_args_queue :=
              (initState : BatchState Val).call_args_queue ++ [([[vi 5, vi 6]], [])]
            n_rows_in_queue :=
              (initState : BatchState Val).n_rows_in_queue +
                n_rows_of [[vi 5, vi 6]] ([] : List (String × List Val)) }) :=
  c7_row_count_and_range initState [[vi 5, vi 6]] [] rfl

/-- C8 counterexample: a negative `max_processing_time` passes the setup
validation of `batch` unrebuked — the claim that a non-positive
`maxProcessingTime` fails eagerly with a `ValueError` is false on the
code, which never inspects this option. -/
theorem c8_max_processing_time_not_validated :
    batch_validate 3 1 (-1) "list" true = .ok () := rfl

/-- C8 (amended): setup validation is eager for `targetBatchSize`,
`maxWaitingTime` and `argumentAggregation` (plus numpy availability):
the configuration is accepted exactly when the batch size and waiting time
are positive and the aggregation strategy is one of the two allowed (with
numpy present when chosen), irrespective of `maxProcessingTime`, which is
not validated; every rejection is a `ValueError`. -/
theorem c8_amended_validation (t : Int) (w p : Rat) (a : String) (na : Bool) :
    (batch_validate t w p a na = .ok () ↔
      (0 < t ∧ 0 < w ∧ (a = "list" ∨ a = "numpy") ∧ (a = "numpy" → na = true))) ∧
    (batch_validate t w p a na = .ok () ∨
      ∃ msg, batch_validate t w p a na = .error (.valueError msg)) := by
  by_cases ht : t > 0
  · by_cases hw : w > 0
    · by_cases ha : a = "list" ∨ a = "numpy"
      · by_cases hn : a = "numpy" ∧ na = false
        · have hv : batch_validate t w p a na =
              .error (.valueError
                "Unable to use numpy as argument_type because numpy is not available") := by
            unfold batch_validate
            rw [if_neg (not_not_intro ht), if_neg (not_not_intro hw),
              if_neg (not_not_intro ha), if_pos hn]
          refine ⟨?_, Or.inr ⟨_, hv⟩⟩
          rw [hv]
          constructor
          · intro h
            exact absurd h (by simp)
          · rintro ⟨-, -, -, himp⟩
            obtain ⟨ha2, hna⟩ := hn
            rw [himp ha2] at hna
            exact absurd hna (by simp)
        · have hv : batch_validate t w p a na = .ok () := by
            unfold batch_validate
            rw [if_neg (not_not_intro ht), if_neg (not_not_intro hw),
              if_neg (not_not_intro ha), if_neg hn]
          refine ⟨?_, Or.inl hv⟩
          rw [hv]
          constructor
          · intro _
            refine ⟨ht, hw, ha, fun hnum => ?_⟩
            by_contra hna
            exact hn ⟨hnum, by simpa using hna⟩
          · intro _
            rfl
      · have hv : batch_validate t w p a na =
            .error (.valueError "Invalid argument_type. Must be one of list, numpy") := by
          unfold batch_validate
          rw [if_neg (not_not_intro ht), if_neg (not_not_intro hw), if_pos ha]
        refine ⟨?_, Or.inr ⟨_, hv⟩⟩
        rw [hv]
        constructor
        · intro h
          exact absurd h (by simp)
        · rintro ⟨-, -, hd, -⟩
          exact absurd hd ha
    · have hv : batch_validate t w p a na =
          .error (.valueError "max_waiting_time must be > 0") := by
        unfold batch_validate
        rw [if_neg (not_not_intro ht), if_pos hw]
      refine ⟨?_, Or.inr ⟨_, hv⟩⟩
      rw [hv]
      constructor
      · intro h
        exact absurd h (by simp)
      · rintro ⟨-, hw2, -, -⟩
        exact absurd hw2 hw
  · have hv : batch_validate t w p a na =
        .error (.valueError "target_batch_size must be > 0") := by
      unfold batch_validate
      rw [if_pos ht]
    refine ⟨?_, Or.inr ⟨_, hv⟩⟩
    rw [hv]
    constructor
    · intro h
      exact absurd h (by simp)
    · rintro ⟨ht2, -, -, -⟩
      exact absurd ht2 ht

/-- The retry loop under permanent failure: with `c ≥ 1` remaining
attempts starting at invocation `i` and current delay `d`, the wrapped
operation is invoked exactly `c` more times, the delays slept before the
re-invocations are `d, d·backoff, d·backoff², …`, and the error of the
last attempt is re-raised. -/
theorem guarded_call_loop_fail {α : Type} (err : Nat → PyErr) (backoff : Rat) :
    ∀ (c : Nat), 1 ≤ c → ∀ (i : Nat) (d : Rat),
      guarded_call_loop (fun j => (.error (err j) : Except PyErr α)) backoff c i d =
        (.error (err (i + c - 1)), i + c,
         (List.range (c - 1)).map (fun j => d * backoff ^ j)) := by
  intro c
  induction c with
  | zero => intro h; exact absurd h (by omega)
  | succ m ih =>
    intro _ i d
    cases m with
    | zero => simp [guarded_call_loop]
    | succ m' =>
      have h1 : 1 ≤ m' + 1 := by omega
      have hstep : guarded_call_loop (fun j => (.error (err j) : Except PyErr α))
            backoff (m' + 1 + 1) i d =
          ((guarded_call_loop (fun j => (.error (err j) : Except PyErr α))
              backoff (m' + 1) (i + 1) (d * backoff)).1,
           (guarded_call_loop (fun j => (.error (err j) : Except PyErr α))
              backoff (m' + 1) (i + 1) (d * backoff)).2.1,
           d :: (guarded_call_loop (fun j => (.error (err j) : Except PyErr α))
              backoff (m' + 1) (i + 1) (d * backoff)).2.2) := rfl
      rw [hstep, ih h1 (i + 1) (d * backoff)]
      simp only [Prod.mk.injEq]
      refine ⟨congrArg (fun k => Except.error (err k)) (by omega), by omega, ?_⟩
      simp only [Nat.add_sub_cancel]
      rw [List.range_succ_eq_map, List.map_cons, List.map_map]
      simp only [pow_zero, mul_one, List.cons.injEq, true_and]
      apply List.map_congr_left
      intro j _
      simp only [Function.comp_apply, pow_succ]
      ring

/-- C9: for a configured attempt bound `K ≥ 1`, when every invocation of
the wrapped operation raises an allowed error, `guarded_call` invokes the
operation exactly `K` times in total — never more — sleeps
`d, d·backoff, d·backoff², …` before the `K - 1` re-invocations (the delay
grows by the backoff multiplier each time), and re-raises the error of the
final failed attempt to the caller. -/
theorem c9_retry_bounded_backoff {α : Type} (K : Nat) (d backoff : Rat)
    (err : Nat → PyErr) (hK : 1 ≤ K) :
    guarded_call K (some d) backoff (fun j => (.error (err j) : Except PyErr α)) =
      (.error (err (K - 1)), K,
       (List.range (K - 1)).map (fun j => d * backoff ^ j)) := by
  unfold guarded_call
  simpa using guarded_call_loop_fail err backoff K hK 0 d

/-- Witness for C9: three attempts, initial delay 2, backoff 3: three
invocations, delays 2 and 6, the last error re-raised. -/
theorem c9_retry_bounded_backoff_witness :
    (1 : Nat) ≤ 3 ∧
    guarded_call 3 (some (2 : Rat)) 3
        (fun _ => (.error (PyErr.runtimeError "boom") : Except PyErr Unit)) =
      (.error (.runtimeError "boom"), 3, [(2 : Rat), 6]) := by
  refine ⟨by norm_num, ?_⟩
  rw [c9_retry_bounded_backoff 3 2 3 (fun _ => .runtimeError "boom") (by norm_num)]
  norm_num [List.range_succ]

/-- C10: `retry(attempts=0)` passes the argument validation (Python
truthiness skips the check for `0`), and a call of the wrapped function
runs the `while counter:` loop zero times: it returns `None` without ever
invoking the wrapped operation and without raising. -/
theorem c10_zero_attempts_returns_none {α : Type} (delay : Option Rat)
    (backoff : Rat) (func : Nat → Except PyErr α) :
    retry_validate (some 0) = .ok () ∧
    guarded_call 0 delay backoff func = (.ok none, 0, []) := by
  constructor
  · simp [retry_validate]
  · rfl

end Dike
